import Mathlib

/-!
Verification of the Binance trading-bot client (order placement, retry and
error classification in binance_orders.rs / error.rs, and the candle
resampling engine in get_candles.rs / get_candles_max.rs /
get_candles_min.rs).

The Rust code is shallowly embedded as follows.

Numerics: the code computes prices with rust_decimal (exact decimal
arithmetic on a scaled integer) and quantities with f64; both are modelled
as exact rationals.  All concrete inputs used below are exactly
representable in f64 and small enough that the f64 computations in the
code are exact, so the rational model agrees with the code on them.
Decimal truncation toward zero is decimalTrunc; the Rust float formatting
of a value to 3 decimal places rounds to nearest, ties to even, modelled
by roundHalfEven / round3.

Effects: network calls are factored out.  Functions that branch on a
classified error string are modelled by their dispatch functions
(String to ErrAction), translated branch by branch from the Rust match
on the classification result.  Timestamps and order ids (u64 / i64 epoch
milliseconds, always nonnegative here) are modelled as Nat.
-/

set_option maxRecDepth 100000

/-- Truncation toward zero of a rational, as rust_decimal Decimal.trunc
performs on the scaled decimal value. -/
def decimalTrunc (x : ℚ) : ℚ := ((if 0 ≤ x then ⌊x⌋ else ⌈x⌉ : ℤ) : ℚ)

/-- Round to the nearest integer, ties to even: the rounding used by Rust
float formatting with a fixed number of decimal places. -/
def roundHalfEven (x : ℚ) : ℤ :=
  let f := ⌊x⌋
  let r := x - (f : ℚ)
  if r < 1 / 2 then f
  else if 1 / 2 < r then f + 1
  else if f % 2 = 0 then f else f + 1

/-- Rounding of a value to 3 decimal places, modelling the Rust
formatting with precision 3 followed by parsing the string back
(binance_orders.rs lines 76 and 77). -/
def round3 (x : ℚ) : ℚ := ((roundHalfEven (x * 1000) : ℤ) : ℚ) / 1000

/-- QUANTITY_IN_DOLLAR from binance_orders.rs line 41: the notional, in
dollars, that the strategy uses in each order. -/
def QUANTITY_IN_DOLLAR : ℕ := 50

/-- calculate_quantity_in_btc from binance_orders.rs lines 65 to 89.  The
current price, fetched inside the Rust function through price_ticker, is
passed here as the argument btc_in_dollar; the fatal `process::exit(1)`
taken when the rounded quantity is 0.000 is modelled as none.  Note the
Rust function formats with precision 3 (rounding) and, after the zero
check, returns the fixed minimum 0.001 whenever min_price is true. -/
def calculate_quantity_in_btc (btc_in_dollar : ℚ) (min_price : Bool) : Option ℚ :=
  let result := (QUANTITY_IN_DOLLAR : ℚ) / btc_in_dollar
  let result := round3 result
  if result = 0 then none
  else if min_price then some (1 / 1000)
  else some result

/-- The quantity the spec claims is submitted: truncate(50 / price, 3
decimals).  Stated from the words of the spec for comparison with
calculate_quantity_in_btc. -/
def quantity_claimed (btc_in_dollar : ℚ) : ℚ :=
  decimalTrunc ((QUANTITY_IN_DOLLAR : ℚ) / btc_in_dollar * 1000) / 1000

/-- Stop price snapping of new_order, binance_orders.rs lines 151 to 197,
translated branch by branch: with positionSide LONG the +1 offset is
applied only to buy orders, with any other given positionSide the -1
offset is applied only to sell orders, and with no positionSide the
offset follows the order direction; all results truncated to 2
decimals. -/
def new_order_stop_price (price_order : ℚ) (is_buy_order : Bool)
    (position_side : Option String) : ℚ :=
  match position_side with
  | some unwrapped_position_side =>
      if unwrapped_position_side = "LONG" then
        if is_buy_order then decimalTrunc ((price_order + 1) * 100) / 100
        else decimalTrunc (price_order * 100) / 100
      else
        if !is_buy_order then decimalTrunc ((price_order - 1) * 100) / 100
        else decimalTrunc (price_order * 100) / 100
  | none =>
      if is_buy_order then decimalTrunc ((price_order + 1) * 100) / 100
      else decimalTrunc ((price_order - 1) * 100) / 100

/-- The stop price the spec claims is submitted: +1 for every buy and -1
for every sell, independent of positionSide, truncated to 2 decimals.
Stated from the words of the spec for comparison with
new_order_stop_price. -/
def stop_price_claimed (price_order : ℚ) (is_buy_order : Bool) : ℚ :=
  if is_buy_order then decimalTrunc ((price_order + 1) * 100) / 100
  else decimalTrunc ((price_order - 1) * 100) / 100

/-- Limit price snapping of new_order_limit, binance_orders.rs lines 279
to 316, translated branch by branch: the +1 offset with positionSide
LONG, the -1 offset with any other given positionSide, and the offset by
order direction with no positionSide; all results truncated to 1
decimal. -/
def new_order_limit_price (price_order : ℚ) (is_buy_order : Bool)
    (position_side : Option String) : ℚ :=
  match position_side with
  | some unwrapped_position_side =>
      if unwrapped_position_side = "LONG" then decimalTrunc ((price_order + 1) * 10) / 10
      else decimalTrunc ((price_order - 1) * 10) / 10
  | none =>
      if is_buy_order then decimalTrunc ((price_order + 1) * 10) / 10
      else decimalTrunc ((price_order - 1) * 10) / 10

/-- The limit price the spec claims is submitted: the requested price
truncated to 1 decimal with no offset.  Stated from the words of the
spec for comparison with new_order_limit_price. -/
def limit_price_claimed (price_order : ℚ) : ℚ :=
  decimalTrunc (price_order * 10) / 10

/-- The p_side string new_order derives from the optional positionSide
argument (binance_orders.rs lines 155 to 172): LONG maps to LONG, any
other given value to SHORT, and a missing value to BOTH.  The same
string is placed in the submitted query parameters and handed to the
market-order fallback. -/
def derive_p_side : Option String → String
  | some unwrapped_position_side =>
      if unwrapped_position_side = "LONG" then "LONG" else "SHORT"
  | none => "BOTH"

/- Error constants from error.rs lines 26 to 33. -/

def ORDER_WOULD_TRIGGER_IMMEDIATELY : String := "E01: Order would immediately trigger."

def ERROR_NOT_MAPPED : String := "E02: Error not mapped."

def ERROR_SERVER_502 : String := "E03: Error 502, exchange server is in trouble."

def ERROR_NOT_VALID_QUANTITY : String := "E04: The quantity in btc is not valid."

def ERROR_NOTHING_TO_CLOSE : String := "E05: ReduceOnly Order is rejected."

def NO_NEED_TO_CHANGE_PS : String := "E06: No need to change position side."

def DNS_ERROR : String := "E07: Dns error: No such host is known."

def RECVWINDOW_ERROR : String := "E08: Timestamp for this request is outside of the recvWindow"

/-- Substring test on character lists, used to model the Rust
String::contains method. -/
def containsSub (pat : List Char) : List Char → Bool
  | [] => pat.isEmpty
  | h :: t => pat.isPrefixOf (h :: t) || containsSub pat t

/-- msg.contains(pat) of Rust. -/
def msgContains (hay pat : String) : Bool := containsSub pat.data hay.data

/-- error_handler from error.rs lines 60 to 89.  The Rust function takes
the HTTP response, extracts the msg field of the decoded JSON body and
matches it; here the msg string is the argument.  Branch order and the
matched phrases are copied from the source; note that every branch after
the first uses a substring test, and the recvWindow phrase carries a
trailing period in the source. -/
def error_handler (msg : String) : String :=
  if msg = "Order would immediately trigger." then ORDER_WOULD_TRIGGER_IMMEDIATELY
  else if msgContains msg "502 Bad Gateway" then ERROR_SERVER_502
  else if msgContains msg "ReduceOnly Order is rejected" then ERROR_NOTHING_TO_CLOSE
  else if msgContains msg "No need to change position side" then NO_NEED_TO_CHANGE_PS
  else if msgContains msg "No such host is known." then DNS_ERROR
  else if msgContains msg "Timestamp for this request is outside of the recvWindow." then
    RECVWINDOW_ERROR
  else ERROR_NOT_MAPPED

/-- What an operation does after its response was classified into an
error string: return a string to the caller, re-invoke the whole
operation from scratch, re-invoke it once and then return a string,
substitute a market order, or terminate the process. -/
inductive ErrAction where
  | ret (s : String)
  | retryOperation
  | retryThenRet (s : String)
  | fallbackMarket (is_buy_order : Bool) (p_side : String)
  | exitProcess
deriving DecidableEq

/-- Error dispatch of new_order, binance_orders.rs lines 240 to 261: the
immediate-trigger classification falls back to a market order carrying
the same is_buy_order flag and the same derived p_side string that were
used for the stop order; the 502 classification is returned; DNS and
recvWindow classifications re-invoke the whole operation; anything else
exits the process. -/
def new_order_error_dispatch (error : String) (is_buy_order : Bool) (p_side : String) :
    ErrAction :=
  if error = ORDER_WOULD_TRIGGER_IMMEDIATELY then ErrAction.fallbackMarket is_buy_order p_side
  else if error = ERROR_SERVER_502 then ErrAction.ret error
  else if error = DNS_ERROR ∨ error = RECVWINDOW_ERROR then ErrAction.retryOperation
  else ErrAction.exitProcess

/-- Error dispatch of new_order_limit, binance_orders.rs lines 350 to
362: no immediate-trigger branch exists; 502 is returned, DNS and
recvWindow re-invoke, anything else exits. -/
def new_order_limit_error_dispatch (error : String) : ErrAction :=
  if error = ERROR_SERVER_502 then ErrAction.ret error
  else if error = DNS_ERROR ∨ error = RECVWINDOW_ERROR then ErrAction.retryOperation
  else ErrAction.exitProcess

/-- Error dispatch of new_order_market, binance_orders.rs lines 417 to
429. -/
def new_order_market_error_dispatch (error : String) : ErrAction :=
  if error = ERROR_SERVER_502 then ErrAction.ret error
  else if error = DNS_ERROR ∨ error = RECVWINDOW_ERROR then ErrAction.retryOperation
  else ErrAction.exitProcess

/-- Error dispatch of order_status, binance_orders.rs lines 607 to
619. -/
def order_status_error_dispatch (error : String) : ErrAction :=
  if error = ERROR_SERVER_502 then ErrAction.ret error
  else if error = DNS_ERROR ∨ error = RECVWINDOW_ERROR then ErrAction.retryOperation
  else ErrAction.exitProcess

/-- Error dispatch of get_order, binance_orders.rs lines 1189 to 1201. -/
def get_order_error_dispatch (error : String) : ErrAction :=
  if error = ERROR_SERVER_502 then ErrAction.ret error
  else if error = DNS_ERROR ∨ error = RECVWINDOW_ERROR then ErrAction.retryOperation
  else ErrAction.exitProcess

/-- Error dispatch of cancel_all_open_orders, binance_orders.rs lines 526
to 538. -/
def cancel_all_open_orders_error_dispatch (error : String) : ErrAction :=
  if error = ERROR_SERVER_502 then ErrAction.ret error
  else if error = DNS_ERROR ∨ error = RECVWINDOW_ERROR then ErrAction.retryOperation
  else ErrAction.exitProcess

/-- Error dispatch of cancel_open_order, binance_orders.rs lines 709 to
722.  On the 502 classification this function, unlike every other
operation, first re-invokes itself recursively, discards that result,
and only then returns the classification string (lines 711 to 713). -/
def cancel_open_order_error_dispatch (error : String) : ErrAction :=
  if error = ERROR_SERVER_502 then ErrAction.retryThenRet error
  else if error = DNS_ERROR ∨ error = RECVWINDOW_ERROR then ErrAction.retryOperation
  else ErrAction.exitProcess

/-- Error dispatch of close_position, binance_orders.rs lines 1030 to
1044: a rejected reduce-only order is mapped to a benign no-op string. -/
def close_position_error_dispatch (error : String) : ErrAction :=
  if error = ERROR_SERVER_502 then ErrAction.ret error
  else if error = ERROR_NOTHING_TO_CLOSE then ErrAction.ret "No position to close. Everything ok."
  else if error = DNS_ERROR ∨ error = RECVWINDOW_ERROR then ErrAction.retryOperation
  else ErrAction.exitProcess

/-- HTTP methods the gateway uses. -/
inductive HttpMethod where
  | GET
  | POST
  | DELETE
deriving DecidableEq

/-- The HTTP verb re_send_request actually invokes for a given method
string, binance_orders.rs lines 1300 to 1322: the GET branch calls
client.get, the POST branch also calls client.get (line 1310), the
DELETE branch calls client.delete, and any other string panics
(none). -/
def re_send_verb (method : String) : Option HttpMethod :=
  if method = "GET" then some HttpMethod.GET
  else if method = "POST" then some HttpMethod.GET
  else if method = "DELETE" then some HttpMethod.DELETE
  else none

/-- re_send_request, binance_orders.rs lines 1300 to 1322, with the
transport modelled by an oracle list: entry true means the attempt gets
a response, false means another transport failure.  The already-signed
request string is passed through unchanged on every attempt and the
function recurses until a response arrives; the result records the
request string and the HTTP verb used for the attempt that succeeded.
An exhausted oracle (none) stands for the recursion never returning. -/
def re_send_request (request : String) (method : String) :
    List Bool → Option (String × HttpMethod)
  | [] => none
  | ok :: rest =>
      match re_send_verb method with
      | none => none
      | some m => if ok then some (request, m) else re_send_request request method rest

/-- First step of an order query: either the early return taken before
any request is built, or the signed request computed from the query
parameters. -/
inductive QueryStep where
  | earlyReturn (s : String)
  | sendRequest (params : String)
deriving DecidableEq

/-- The query-parameter string order_status and get_order sign and send,
binance_orders.rs lines 582 to 585 and 1166 to 1169. -/
def order_query_params (order_id : ℕ) (timestamp : ℕ) : String :=
  "orderId=" ++ toString order_id ++ "&symbol=BTCUSDT&timestamp=" ++ toString timestamp ++
    "&recvWindow=50000"

/-- order_status head, binance_orders.rs lines 574 to 600: order id 0
returns the fixed string before any client, timestamp, signature or
request is produced; otherwise the parameter string is built and the
request is sent. -/
def order_status (order_id : ℕ) (timestamp : ℕ) : QueryStep :=
  if order_id = 0 then QueryStep.earlyReturn "Invalid Order ID."
  else QueryStep.sendRequest (order_query_params order_id timestamp)

/-- get_order head, binance_orders.rs lines 1158 to 1183, identical in
shape to order_status. -/
def get_order (order_id : ℕ) (timestamp : ℕ) : QueryStep :=
  if order_id = 0 then QueryStep.earlyReturn "Invalid Order ID."
  else QueryStep.sendRequest (order_query_params order_id timestamp)

/-- Digit-string parser modelling str.parse of Rust on the candle-length
substring: the empty string or any non-digit character fails (the Rust
unwrap then panics, modelled as none). -/
def parse_nat_digits_go (acc : ℕ) : List Char → Option ℕ
  | [] => some acc
  | c :: rest => if c.isDigit then parse_nat_digits_go (acc * 10 + (c.toNat - 48)) rest else none

/-- parse of the candle-length digits; the empty string fails. -/
def parse_nat_digits : List Char → Option ℕ
  | [] => none
  | cs => parse_nat_digits_go 0 cs

/-- Interval handling shared by the resampling entry points (for example
get_candles.rs lines 182 to 198): the last character of the interval
string is the period unit, the front is the candle length, and the
number of one-minute candles to fetch is the given quantity times the
length in minutes.  A missing or unknown unit and an unparsable length
panic in Rust, modelled as none.  The entry points differ only in the
quantity they pass here (the plain quantity for the close-only variant,
quantity + 2 for the max and min variants). -/
def interval_one_min_qty (quantity : ℕ) (interval : String) : Option ℕ :=
  match interval.data.getLast? with
  | none => none
  | some period =>
      match parse_nat_digits interval.data.dropLast with
      | none => none
      | some candle_length =>
          if period = 'm' then some (quantity * candle_length)
          else if period = 'h' then some (quantity * 60 * candle_length)
          else none

/-- Write into the last position of the bucket list, modelling the
assignment candles[i - 1] = price where i is the current length. -/
def setLast (l : List ℚ) (x : ℚ) : List ℚ := l.dropLast ++ [x]

/-- The close-only aggregation loop of get_candle_info, get_candles.rs
lines 205 to 225, over the ordered (open time in ms, close) sequence
taken from the BTreeMap: a candle whose open time in whole seconds is
divisible by the bucket length opens a new bucket seeded with its close;
later candles overwrite the close of the open bucket; candles seen
before the first boundary are ignored. -/
def closeScanGo (bucket_seconds : ℕ) :
    List (ℕ × ℚ) → List ℚ → Bool → List ℚ
  | [], candles, _ => candles
  | (date, price) :: rest, candles, is_opened =>
      if date / 1000 % bucket_seconds = 0 then
        closeScanGo bucket_seconds rest (candles ++ [price]) true
      else if is_opened then
        closeScanGo bucket_seconds rest (setLast candles price) is_opened
      else
        closeScanGo bucket_seconds rest candles is_opened

/-- The largest finite f64, the value of the f64 MAX constant, written
as an explicit integer literal so that it evaluates; the lemma
f64MAX_eq below checks it against the closed form. -/
def f64MAX : ℚ :=
  179769313486231570814527423731704356798070567525844996598917476803157260780028538760589558632766878171540458953514382464234321326889464182768467546703537516986049910576551282076245490090389328944075868508455133942304583236903222948165808559332123348274797826204144723168738177180919299881250404026184124858368

/-- The smallest finite f64, the value of the f64 MIN constant used to
reseed the running maximum when a bucket is finalized. -/
def f64MIN : ℚ := -f64MAX

/-- The high-only aggregation loop of get_candle_info_max_value,
get_candles_max.rs lines 208 to 233: the running maximum is seeded with
0.0, every candle (boundary or not, opened or not) folds its high into
the running maximum, a boundary candle first pushes the finished bucket
and reseeds the maximum with the f64 MIN constant, and a bucket still
open at the end of the input is pushed. -/
def maxScanGo (bucket_seconds : ℕ) :
    List (ℕ × ℚ) → List ℚ → ℚ → Bool → List ℚ
  | [], candles, max_value, is_opened =>
      if is_opened then candles ++ [max_value] else candles
  | (date, price) :: rest, candles, max_value, is_opened =>
      if date / 1000 % bucket_seconds = 0 then
        if is_opened then
          maxScanGo bucket_seconds rest (candles ++ [max_value])
            (if f64MIN < price then price else f64MIN) true
        else
          maxScanGo bucket_seconds rest candles
            (if max_value < price then price else max_value) true
      else
        maxScanGo bucket_seconds rest candles
          (if max_value < price then price else max_value) is_opened

/-- The low-only aggregation loop of get_candle_info_min_value,
get_candles_min.rs lines 222 to 249: identical shape to the high-only
loop, with the running minimum seeded with 0.0 and reseeded with the f64
MAX constant. -/
def minScanGo (bucket_seconds : ℕ) :
    List (ℕ × ℚ) → List ℚ → ℚ → Bool → List ℚ
  | [], candles, min_value, is_opened =>
      if is_opened then candles ++ [min_value] else candles
  | (date, price) :: rest, candles, min_value, is_opened =>
      if date / 1000 % bucket_seconds = 0 then
        if is_opened then
          minScanGo bucket_seconds rest (candles ++ [min_value])
            (if price < f64MAX then price else f64MAX) true
        else
          minScanGo bucket_seconds rest candles
            (if price < min_value then price else min_value) true
      else
        minScanGo bucket_seconds rest candles
          (if price < min_value then price else min_value) is_opened

/-- The edge trim candles.remove(0) followed by candles.pop() performed
by the max and min variants (get_candles_max.rs lines 234 and 235,
get_candles_min.rs lines 257 and 258); remove(0) panics in Rust on an
empty vector, while this total model returns the empty list. -/
def trimHeadTail (l : List ℚ) : List ℚ := l.tail.dropLast

/-- The bucket list get_candle_info scans (close-only variant), before
anything is returned: bucket length in seconds is
(one_min_quantity / quantity) * 60, matching get_candles.rs line 212. -/
def close_buckets_raw (quantity : ℕ) (interval : String) (candle_1m : List (ℕ × ℚ)) :
    Option (List ℚ) :=
  match interval_one_min_qty quantity interval with
  | none => none
  | some one_min_quantity =>
      some (closeScanGo (one_min_quantity / quantity * 60) candle_1m [] false)

/-- get_candle_info, get_candles.rs lines 177 to 233, on an
already-fetched candle sequence: the scanned bucket list is returned as
is, with no edge trim of any kind. -/
def get_candle_info (quantity : ℕ) (interval : String) (candle_1m : List (ℕ × ℚ)) :
    Option (List ℚ) :=
  close_buckets_raw quantity interval candle_1m

/-- The close-only resampler as the spec describes it, with the first
and last scanned buckets discarded before the result is returned.
Stated from the words of the spec for comparison with
get_candle_info. -/
def get_candle_info_trimmed_claim (quantity : ℕ) (interval : String)
    (candle_1m : List (ℕ × ℚ)) : Option (List ℚ) :=
  Option.map trimHeadTail (close_buckets_raw quantity interval candle_1m)

/-- The bucket list get_candle_info_max_value scans before its edge trim:
the fetch quantity and the bucket modulus both use quantity + 2,
matching get_candles_max.rs lines 189 and 216. -/
def max_buckets_raw (quantity : ℕ) (interval : String) (candle_1m : List (ℕ × ℚ)) :
    Option (List ℚ) :=
  match interval_one_min_qty (quantity + 2) interval with
  | none => none
  | some one_min_quantity =>
      some (maxScanGo (one_min_quantity / (quantity + 2) * 60) candle_1m [] 0 false)

/-- get_candle_info_max_value, get_candles_max.rs lines 176 to 243, on an
already-fetched candle sequence: the scanned bucket list with the first
and last entries removed. -/
def get_candle_info_max_value (quantity : ℕ) (interval : String)
    (candle_1m : List (ℕ × ℚ)) : Option (List ℚ) :=
  Option.map trimHeadTail (max_buckets_raw quantity interval candle_1m)

/-- The bucket list get_candle_info_min_value scans before its edge trim,
get_candles_min.rs lines 197 and 231. -/
def min_buckets_raw (quantity : ℕ) (interval : String) (candle_1m : List (ℕ × ℚ)) :
    Option (List ℚ) :=
  match interval_one_min_qty (quantity + 2) interval with
  | none => none
  | some one_min_quantity =>
      some (minScanGo (one_min_quantity / (quantity + 2) * 60) candle_1m [] 0 false)

/-- get_candle_info_min_value, get_candles_min.rs lines 184 to 266, on an
already-fetched candle sequence: the scanned bucket list with the first
and last entries removed. -/
def get_candle_info_min_value (quantity : ℕ) (interval : String)
    (candle_1m : List (ℕ × ℚ)) : Option (List ℚ) :=
  Option.map trimHeadTail (min_buckets_raw quantity interval candle_1m)

/-- Ten contiguous one-minute candles whose open times are aligned to the
epoch and whose closes are 1 to 10, the input of the resampling test
scenario. -/
def c6_candles : List (ℕ × ℚ) :=
  [(0, 1), (60000, 2), (120000, 3), (180000, 4), (240000, 5),
   (300000, 6), (360000, 7), (420000, 8), (480000, 9), (540000, 10)]

/-- Ten contiguous one-minute candles with closes 1 to 10 whose range
starts mid-bucket (open times from 240 s) and ends mid-bucket (the last
bucket, opening at 600 s, sees only 4 of its 5 minutes). -/
def c7_candles : List (ℕ × ℚ) :=
  [(240000, 1), (300000, 2), (360000, 3), (420000, 4), (480000, 5),
   (540000, 6), (600000, 7), (660000, 8), (720000, 9), (780000, 10)]

/-- Fifteen contiguous epoch-aligned one-minute candles with highs 1 to
15: the padded fetch (quantity 1 plus 2 extra buckets of 5 minutes) for
the max-variant trim scenario. -/
def c7_max_candles : List (ℕ × ℚ) :=
  [(0, 1), (60000, 2), (120000, 3), (180000, 4), (240000, 5),
   (300000, 6), (360000, 7), (420000, 8), (480000, 9), (540000, 10),
   (600000, 11), (660000, 12), (720000, 13), (780000, 14), (840000, 15)]

/-- The f64 MAX literal agrees with the closed form of the largest
finite double. -/
theorem f64MAX_eq : f64MAX = 2 ^ 1024 - 2 ^ 971 := by
  norm_num [f64MAX]

/-- Evaluation helper: the floor of a rational bracketed by consecutive
integers. -/
theorem floor_eval (a : ℤ) (x : ℚ) (h1 : (a : ℚ) ≤ x) (h2 : x < (a : ℚ) + 1) :
    ⌊x⌋ = a := by
  rw [Int.floor_eq_iff]
  exact ⟨h1, by exact_mod_cast h2⟩

/-- Evaluation helper for decimalTrunc on nonnegative inputs. -/
theorem decimalTrunc_eval (a : ℤ) (x : ℚ) (h0 : 0 ≤ x) (h1 : (a : ℚ) ≤ x)
    (h2 : x < (a : ℚ) + 1) : decimalTrunc x = (a : ℚ) := by
  simp [decimalTrunc, h0, floor_eval a x h1 h2]

/-- Evaluation helper for roundHalfEven when the fractional part is below
one half. -/
theorem roundHalfEven_eval_low (a : ℤ) (x : ℚ) (h1 : (a : ℚ) ≤ x)
    (h2 : x - (a : ℚ) < 1 / 2) : roundHalfEven x = a := by
  have hf : ⌊x⌋ = a := floor_eval a x h1 (by linarith)
  simp only [roundHalfEven, hf]
  rw [if_pos h2]

/-- Evaluation helper for roundHalfEven when the fractional part is above
one half. -/
theorem roundHalfEven_eval_high (a : ℤ) (x : ℚ) (h1 : (a : ℚ) ≤ x)
    (h3 : x < (a : ℚ) + 1) (h2 : 1 / 2 < x - (a : ℚ)) : roundHalfEven x = a + 1 := by
  have hf : ⌊x⌋ = a := floor_eval a x h1 h3
  simp only [roundHalfEven, hf]
  rw [if_neg (by linarith), if_pos h2]

/-- C1 counterexample: for the requested price 20000.0 on a LONG limit
order the code submits 20001.0, not the claimed plain truncation 20000.0
of the requested price, because new_order_limit adds the +1 offset
before truncating to 1 decimal. -/
theorem new_order_limit_price_has_offset :
    new_order_limit_price 20000 true (some "LONG") ≠ limit_price_claimed 20000 := by
  have hcode : new_order_limit_price 20000 true (some "LONG") = 20001 := by
    show decimalTrunc ((20000 + 1) * 10) / 10 = 20001
    rw [decimalTrunc_eval 200010 _ (by norm_num) (by norm_num) (by norm_num)]
    norm_num
  have hclaim : limit_price_claimed 20000 = 20000 := by
    show decimalTrunc (20000 * 10) / 10 = 20000
    rw [decimalTrunc_eval 200000 _ (by norm_num) (by norm_num) (by norm_num)]
    norm_num
  rw [hcode, hclaim]
  norm_num

/-- C1 amended: a new limit order applies a +1 / -1 offset to the
requested price and only then truncates to 1 decimal: +1 when
positionSide is LONG, -1 when another positionSide is given, and +1 for
buy / -1 for sell when no positionSide is given; for example requested
price 20000.25 on a LONG limit order submits 20001.2. -/
theorem new_order_limit_price_policy :
    (∀ p : ℚ, ∀ b : Bool,
        new_order_limit_price p b (some "LONG") = decimalTrunc ((p + 1) * 10) / 10 ∧
        new_order_limit_price p b (some "SHORT") = decimalTrunc ((p - 1) * 10) / 10) ∧
    (∀ p : ℚ, new_order_limit_price p true none = decimalTrunc ((p + 1) * 10) / 10 ∧
        new_order_limit_price p false none = decimalTrunc ((p - 1) * 10) / 10) ∧
    new_order_limit_price (80001 / 4) true (some "LONG") = 100006 / 5 := by
  refine ⟨fun p b => ⟨rfl, rfl⟩, fun p => ⟨rfl, rfl⟩, ?_⟩
  show decimalTrunc ((80001 / 4 + 1) * 10) / 10 = 100006 / 5
  rw [decimalTrunc_eval 200012 _ (by norm_num) (by norm_num) (by norm_num)]
  norm_num

/-- C2 counterexample: a buy stop order with positionSide SHORT at
requested price 20000.0 submits the plain truncation 20000.00, not the
claimed 20001.00, because new_order applies the +1 offset only when the
buy matches a LONG or absent positionSide. -/
theorem new_order_stop_price_depends_on_position_side :
    new_order_stop_price 20000 true (some "SHORT") ≠ stop_price_claimed 20000 true := by
  have hcode : new_order_stop_price 20000 true (some "SHORT") = 20000 := by
    show decimalTrunc (20000 * 100) / 100 = 20000
    rw [decimalTrunc_eval 2000000 _ (by norm_num) (by norm_num) (by norm_num)]
    norm_num
  have hclaim : stop_price_claimed 20000 true = 20001 := by
    show decimalTrunc ((20000 + 1) * 100) / 100 = 20001
    rw [decimalTrunc_eval 2000100 _ (by norm_num) (by norm_num) (by norm_num)]
    norm_num
  rw [hcode, hclaim]
  norm_num

/-- C2 amended: the stop-price offset depends on the positionSide and the
side together: with positionSide LONG only a buy gets +1 and a sell is
truncated with no offset; with positionSide SHORT only a sell gets -1
and a buy is truncated with no offset; with no positionSide the claimed
rule holds, +1 for buy and -1 for sell, so requested price 20000.0
yields 20001.00 for a buy and 19999.00 for a sell there; all results are
truncated to 2 decimals. -/
theorem new_order_stop_price_policy :
    (∀ p : ℚ, new_order_stop_price p true none = stop_price_claimed p true ∧
        new_order_stop_price p false none = stop_price_claimed p false ∧
        new_order_stop_price p true (some "LONG") = decimalTrunc ((p + 1) * 100) / 100 ∧
        new_order_stop_price p false (some "LONG") = decimalTrunc (p * 100) / 100 ∧
        new_order_stop_price p false (some "SHORT") = decimalTrunc ((p - 1) * 100) / 100 ∧
        new_order_stop_price p true (some "SHORT") = decimalTrunc (p * 100) / 100) ∧
    new_order_stop_price 20000 true none = 20001 ∧
    new_order_stop_price 20000 false none = 19999 := by
  refine ⟨fun p => ⟨rfl, rfl, rfl, rfl, rfl, rfl⟩, ?_, ?_⟩
  · show decimalTrunc ((20000 + 1) * 100) / 100 = 20001
    rw [decimalTrunc_eval 2000100 _ (by norm_num) (by norm_num) (by norm_num)]
    norm_num
  · show decimalTrunc ((20000 - 1) * 100) / 100 = 19999
    rw [decimalTrunc_eval 1999900 _ (by norm_num) (by norm_num) (by norm_num)]
    norm_num

/-- C3 counterexample: at current price 25000 the claimed quantity
truncate(50 / 25000, 3) is 0.002, but the placement submits 0.001,
because every order placement calls the sizing helper with min_price
true and the helper then returns the fixed minimum. -/
theorem calculate_quantity_fixed_minimum :
    calculate_quantity_in_btc 25000 true ≠ some (quantity_claimed 25000) := by
  have hr : roundHalfEven ((QUANTITY_IN_DOLLAR : ℚ) / 25000 * 1000) = 2 :=
    roundHalfEven_eval_low 2 _ (by norm_num [QUANTITY_IN_DOLLAR])
      (by norm_num [QUANTITY_IN_DOLLAR])
  have hcode : calculate_quantity_in_btc 25000 true = some (1 / 1000) := by
    simp only [calculate_quantity_in_btc, round3, hr]
    norm_num
  have hclaim : quantity_claimed 25000 = 1 / 500 := by
    simp only [quantity_claimed]
    rw [decimalTrunc_eval 2 _ (by norm_num [QUANTITY_IN_DOLLAR])
      (by norm_num [QUANTITY_IN_DOLLAR]) (by norm_num [QUANTITY_IN_DOLLAR])]
    norm_num
  rw [hcode, hclaim]
  norm_num

/-- C3 amended: the sizing helper rounds 50 / currentPrice to 3 decimal
places (the precision-3 formatting rounds, it does not truncate) and
fails fatally exactly when that rounded value is 0, as at currentPrice
10,000,000; but since every placement passes min_price true, whenever
sizing succeeds the submitted quantity is the fixed 0.001, not the
claimed truncate(50 / currentPrice, 3).  At currentPrice 66666 the code
even succeeds (rounding gives 0.001) where the claimed truncation would
give 0 and fail. -/
theorem calculate_quantity_policy :
    (∀ p : ℚ, 0 < p →
        (calculate_quantity_in_btc p true = none ↔
          round3 ((QUANTITY_IN_DOLLAR : ℚ) / p) = 0) ∧
        (calculate_quantity_in_btc p true = none ∨
          calculate_quantity_in_btc p true = some (1 / 1000))) ∧
    calculate_quantity_in_btc 10000000 true = none ∧
    calculate_quantity_in_btc 66666 true = some (1 / 1000) ∧
    quantity_claimed 66666 = 0 := by
  refine ⟨fun p hp => ?_, ?_, ?_, ?_⟩
  · constructor
    · by_cases h : round3 ((QUANTITY_IN_DOLLAR : ℚ) / p) = 0 <;>
        simp [calculate_quantity_in_btc, h]
    · by_cases h : round3 ((QUANTITY_IN_DOLLAR : ℚ) / p) = 0 <;>
        simp [calculate_quantity_in_btc, h]
  · have hr : roundHalfEven ((QUANTITY_IN_DOLLAR : ℚ) / 10000000 * 1000) = 0 :=
      roundHalfEven_eval_low 0 _ (by norm_num [QUANTITY_IN_DOLLAR])
        (by norm_num [QUANTITY_IN_DOLLAR])
    simp only [calculate_quantity_in_btc, round3, hr]
    norm_num
  · have hr : roundHalfEven ((QUANTITY_IN_DOLLAR : ℚ) / 66666 * 1000) = 0 + 1 :=
      roundHalfEven_eval_high 0 _ (by norm_num [QUANTITY_IN_DOLLAR])
        (by norm_num [QUANTITY_IN_DOLLAR]) (by norm_num [QUANTITY_IN_DOLLAR])
    simp only [calculate_quantity_in_btc, round3, hr]
    norm_num
  · simp only [quantity_claimed]
    rw [decimalTrunc_eval 0 _ (by norm_num [QUANTITY_IN_DOLLAR])
      (by norm_num [QUANTITY_IN_DOLLAR]) (by norm_num [QUANTITY_IN_DOLLAR])]
    norm_num

/-- C3 witness: the sizing characterization instantiated at the concrete
current price 25000. -/
theorem calculate_quantity_policy_witness :
    (calculate_quantity_in_btc 25000 true = none ↔
      round3 ((QUANTITY_IN_DOLLAR : ℚ) / 25000) = 0) ∧
    (calculate_quantity_in_btc 25000 true = none ∨
      calculate_quantity_in_btc 25000 true = some (1 / 1000)) :=
  calculate_quantity_policy.1 25000 (by norm_num)

/-- C4: the re-send loop does pass the identical already-signed request
string through unchanged on every attempt and recurses until a response
arrives, but for the method string POST it issues the attempt with the
HTTP GET verb (binance_orders.rs line 1310), not with POST again. -/
theorem re_send_request_post_uses_get :
    (∀ request : String,
        re_send_request request "POST" [false, false, true] =
          some (request, HttpMethod.GET)) ∧
    HttpMethod.GET ≠ HttpMethod.POST := by
  exact ⟨fun request => rfl, by decide⟩

/-- C5 counterexample: in cancel_open_order the ServerUnavailable (502)
classification is not simply returned: the operation first re-invokes
the entire cancel once, discards that result, and only then returns the
classification, so a further retry does happen. -/
theorem cancel_open_order_retries_on_502 :
    cancel_open_order_error_dispatch ERROR_SERVER_502 =
      ErrAction.retryThenRet ERROR_SERVER_502 ∧
    ErrAction.retryThenRet ERROR_SERVER_502 ≠ ErrAction.ret ERROR_SERVER_502 := by
  exact ⟨rfl, by decide⟩

/-- C5 amended: every modelled operation except cancel_open_order returns
the ServerUnavailable classification to the caller with no further
retry; cancel_open_order first re-invokes the whole cancel operation
once, discarding its result, and then returns the classification. -/
theorem server_unavailable_dispatch_policy :
    (∀ (b : Bool) (ps : String),
        new_order_error_dispatch ERROR_SERVER_502 b ps = ErrAction.ret ERROR_SERVER_502) ∧
    new_order_limit_error_dispatch ERROR_SERVER_502 = ErrAction.ret ERROR_SERVER_502 ∧
    new_order_market_error_dispatch ERROR_SERVER_502 = ErrAction.ret ERROR_SERVER_502 ∧
    order_status_error_dispatch ERROR_SERVER_502 = ErrAction.ret ERROR_SERVER_502 ∧
    get_order_error_dispatch ERROR_SERVER_502 = ErrAction.ret ERROR_SERVER_502 ∧
    cancel_all_open_orders_error_dispatch ERROR_SERVER_502 = ErrAction.ret ERROR_SERVER_502 ∧
    close_position_error_dispatch ERROR_SERVER_502 = ErrAction.ret ERROR_SERVER_502 ∧
    cancel_open_order_error_dispatch ERROR_SERVER_502 =
      ErrAction.retryThenRet ERROR_SERVER_502 := by
  exact ⟨fun b ps => rfl, rfl, rfl, rfl, rfl, rfl, rfl, rfl⟩

/-- C6: on ten contiguous epoch-aligned one-minute candles with closes 1
to 10 and 5-minute (300 second) buckets, the close-only resampler
returns exactly two buckets, whose values are the close of the 5th
candle and the close of the 10th candle. -/
theorem get_candle_info_close_resample_example :
    get_candle_info 2 "5m" c6_candles = some [5, 10] := by decide

/-- C7 counterexample: on a range that starts and ends mid-bucket the
close-only resampler returns both edge buckets untrimmed (the trailing
bucket saw only 4 of its 5 minutes), while the behaviour the spec claims
for every variant, discarding the first and the last scanned bucket,
would return nothing here. -/
theorem close_resampler_returns_untrimmed_edges :
    get_candle_info 2 "5m" c7_candles = some [6, 10] ∧
    get_candle_info_trimmed_claim 2 "5m" c7_candles = some [] ∧
    get_candle_info 2 "5m" c7_candles ≠ get_candle_info_trimmed_claim 2 "5m" c7_candles := by
  exact ⟨by decide, by decide, by decide⟩

/-- C7 amended: only the high-only and low-only variants discard the
first and the last scanned bucket before returning (they also over-fetch
two extra buckets to cover that trim); the close-only variant applies no
trim at all and returns every scanned bucket, including partial edge
buckets.  Concretely, the high-only variant on fifteen aligned candles
with highs 1 to 15 scans the buckets 5, 10, 15 and returns only the
interior bucket 10, while the close-only variant keeps a trailing
partial bucket. -/
theorem resampler_trim_policy :
    (∀ (q : ℕ) (itv : String) (input : List (ℕ × ℚ)),
        get_candle_info_max_value q itv input =
          Option.map trimHeadTail (max_buckets_raw q itv input)) ∧
    (∀ (q : ℕ) (itv : String) (input : List (ℕ × ℚ)),
        get_candle_info_min_value q itv input =
          Option.map trimHeadTail (min_buckets_raw q itv input)) ∧
    (∀ (q : ℕ) (itv : String) (input : List (ℕ × ℚ)),
        get_candle_info q itv input = close_buckets_raw q itv input) ∧
    max_buckets_raw 1 "5m" c7_max_candles = some [5, 10, 15] ∧
    get_candle_info_max_value 1 "5m" c7_max_candles = some [10] ∧
    get_candle_info 2 "5m" c7_candles = some [6, 10] := by
  have hraw : max_buckets_raw 1 "5m" c7_max_candles = some [5, 10, 15] := by decide
  refine ⟨fun q itv input => rfl, fun q itv input => rfl, fun q itv input => rfl,
    hraw, ?_, by decide⟩
  rw [show get_candle_info_max_value 1 "5m" c7_max_candles =
    Option.map trimHeadTail (max_buckets_raw 1 "5m" c7_max_candles) from rfl, hraw]
  decide

/-- C8 counterexample: the recvWindow matcher in error_handler requires
the trailing period of the source phrase, so a message containing only
the period-less trigger phrase of the claim matches no branch and is
classified Unmapped rather than AuthTimestampSkew. -/
theorem error_handler_recvwindow_needs_period :
    error_handler "Timestamp for this request is outside of the recvWindow" =
      ERROR_NOT_MAPPED ∧
    ERROR_NOT_MAPPED ≠ RECVWINDOW_ERROR := by
  exact ⟨by decide, by decide⟩

/-- C8 amended: the classifier maps the exact message of an immediate
trigger to ImmediateTrigger, any message containing 502 Bad Gateway to
ServerUnavailable, and an unmatched message to Unmapped, as claimed; the
recvWindow-skew branch however fires only when the message contains the
phrase with its trailing period, Timestamp for this request is outside
of the recvWindow followed by a period. -/
theorem error_handler_classification :
    error_handler "Order would immediately trigger." = ORDER_WOULD_TRIGGER_IMMEDIATELY ∧
    error_handler "502 Bad Gateway reached" = ERROR_SERVER_502 ∧
    error_handler "Timestamp for this request is outside of the recvWindow." =
      RECVWINDOW_ERROR ∧
    error_handler "whatever unexpected" = ERROR_NOT_MAPPED := by
  exact ⟨by decide, by decide, by decide, by decide⟩

/-- C9: when a stop order fails with the ImmediateTrigger classification,
new_order substitutes a market order carrying the same is_buy_order flag
and the same derived p_side string that were placed in the stop order
request, for every positionSide argument; and the new_order_limit error
dispatch has no market-order fallback for any classification. -/
theorem immediate_trigger_fallback_policy :
    (∀ (b : Bool) (ps : Option String),
        new_order_error_dispatch ORDER_WOULD_TRIGGER_IMMEDIATELY b (derive_p_side ps) =
          ErrAction.fallbackMarket b (derive_p_side ps)) ∧
    (∀ (error : String) (b : Bool) (ps : String),
        new_order_limit_error_dispatch error ≠ ErrAction.fallbackMarket b ps) := by
  constructor
  · intro b ps
    rfl
  · intro error b ps
    unfold new_order_limit_error_dispatch
    split_ifs <;> simp

/-- C10: order_status and get_order return the string Invalid Order ID.
exactly when the order id is 0, before any request parameters exist; for
every nonzero order id they build and send the signed order query. -/
theorem order_query_zero_id_early_return :
    ∀ (order_id timestamp : ℕ),
      (order_status order_id timestamp = QueryStep.earlyReturn "Invalid Order ID." ↔
        order_id = 0) ∧
      (get_order order_id timestamp = QueryStep.earlyReturn "Invalid Order ID." ↔
        order_id = 0) ∧
      (order_id = 0 ∨
        order_status order_id timestamp =
          QueryStep.sendRequest (order_query_params order_id timestamp)) ∧
      (order_id = 0 ∨
        get_order order_id timestamp =
          QueryStep.sendRequest (order_query_params order_id timestamp)) := by
  intro order_id timestamp
  by_cases h : order_id = 0 <;> simp [order_status, get_order, h]
